import Mathlib

/-!
Shallow embedding of librq (librq.c), the RISP-based message-queue client
library, together with proofs about its parameter accumulator, message
table, connection lifecycle and verb handlers.

Modelling conventions, used throughout:

* Byte buffers (`expbuf_t`) are modelled as `List Nat` (the byte contents);
  a `NULL` buffer pointer is `Option.none`.
* Wire output is modelled at the level of RISP commands (`Cmd`): the
  external `addCmd` / `addCmdShortStr` / ... encoders of rispbuf are taken
  as primitive, so an emission is a `List Cmd` appended to a connection's
  `outbuf`.  The per-connection `sendbuf` in the C source is a scratch
  buffer that is asserted empty, filled with exactly one command sequence
  and flushed to `outbuf` by `rq_senddata` before being cleared again
  (e.g. librq.c:722-736); it is therefore modelled by appending the
  assembled sequence directly to `outbuf`.
* `assert(...)` in the C source aborts the process when its condition is
  false.  Functions whose embedded control flow can reach such an abort
  (or C undefined behaviour) return `Option`; `none` models the abort.
* Pointer identity of `rq_conn_t` objects is modelled by a `cid` field;
  the connection list holds the records in list order (head = preferred
  controller), and `msg->conn` is the `cid` of the owning connection.
* Event registration (libevent) is modelled as booleans: whether the
  read / write / connect event is currently registered.
* User callbacks (queue handler, `accepted`, reply handler) are modelled
  via an event trace `events` recording each invocation, plus - for the
  queue handler in `cmdRequest` - an explicit handler function parameter,
  since the handler may re-enter the library (`rq_reply`).
-/

/-- RISP commands, as assembled by the rispbuf `addCmd*` primitives.
Integer-carrying commands keep the value passed to the encoder. -/
inductive Cmd where
  | clear : Cmd
  | ping : Cmd
  | pong : Cmd
  | request : Cmd
  | reply : Cmd
  | delivered : Cmd
  | undelivered : Cmd
  | broadcast : Cmd
  | noreply : Cmd
  | closing : Cmd
  | consuming : Cmd
  | consume : Cmd
  | exclusive : Cmd
  | serverFull : Cmd
  | id (v : Int) : Cmd
  | queueId (v : Nat) : Cmd
  | timeout (v : Nat) : Cmd
  | priority (v : Int) : Cmd
  | max (v : Int) : Cmd
  | queue (s : List Nat) : Cmd
  | payload (d : List Nat) : Cmd
deriving DecidableEq, Repr

/-- Events recording user-callback invocations (the library calling out to
application code): `handler` is a Subscription's message handler invoked by
`cmdRequest`, `accepted` a Subscription's accepted-callback invoked by
`cmdConsuming`. -/
inductive Ev where
  | handler (qname : List Nat) (mid : Nat) : Ev
  | accepted (qname : List Nat) (qid : Nat) : Ev
deriving DecidableEq, Repr

/-- The per-connection parameter accumulator `rq_data_t`.  The C `mask`
bitfield (one bit per typed parameter) is modelled by one boolean per bit;
`flags` holds only the NOREPLY flag.  `payload` is `none` when the C
pointer is NULL (ownership was moved to a message, librq.c:1175-1176). -/
structure rq_data_t where
  flagNoreply : Bool
  maskId : Bool
  maskQueueId : Bool
  maskTimeout : Bool
  maskPriority : Bool
  maskQueue : Bool
  maskPayload : Bool
  id : Nat
  qid : Nat
  timeout : Nat
  priority : Nat
  queue : List Nat
  payload : Option (List Nat)
deriving DecidableEq, Repr

/-- Accumulator state produced by `rq_data_init` (librq.c:138-154): all
fields zero, payload not yet allocated, queue buffer allocated empty. -/
def rq_data_init : rq_data_t :=
  { flagNoreply := false
    maskId := false, maskQueueId := false, maskTimeout := false
    maskPriority := false, maskQueue := false, maskPayload := false
    id := 0, qid := 0, timeout := 0, priority := 0
    queue := [], payload := none }

/-- The CLEAR verb handler `cmdClear` (librq.c:998-1017): reset mask and
flags, zero the integer parameters, clear the queue buffer, and clear (but
do not free) the payload buffer when one is allocated. -/
def cmdClear (d : rq_data_t) : rq_data_t :=
  { flagNoreply := false
    maskId := false, maskQueueId := false, maskTimeout := false
    maskPriority := false, maskQueue := false, maskPayload := false
    id := 0, qid := 0, timeout := 0, priority := 0
    queue := []
    payload := d.payload.map (fun _ => []) }

/-- Message lifecycle states (`rq_msgstate` enum of rq.h, as used in
librq.c: `rq_msgstate_new`, `rq_msgstate_delivering`, `rq_msgstate_replied`,
`rq_msgstate_delivered`). -/
inductive rq_msgstate where
  | new : rq_msgstate
  | delivering : rq_msgstate
  | delivered : rq_msgstate
  | replied : rq_msgstate
deriving DecidableEq, Repr

/-- An in-flight message record `rq_message_t`.  `conn` is the `cid` of the
connection an inbound request arrived on (`none` for outbound messages);
`data` is the owned payload buffer (`none` = NULL pointer).  The back
pointer `msg->rq` and the callback pointers are implicit in the model. -/
structure rq_message_t where
  id : Int
  src_id : Int
  broadcast : Bool
  noreply : Bool
  state : rq_msgstate
  conn : Option Nat
  queue : Option (List Nat)
  data : Option (List Nat)
deriving DecidableEq, Repr

/-- A consume Subscription `rq_queue_t`.  The three callback pointers are
modelled by whether they are present (`accepted`); the `handler` pointer is
asserted non-NULL at registration and its invocation is recorded in the
event trace. -/
structure rq_queue_t where
  queue : List Nat
  qid : Nat
  exclusive : Bool
  max : Int
  priority : Int
  accepted : Bool
deriving DecidableEq, Repr

/-- One controller connection `rq_conn_t`.  `cid` models pointer identity
(stable across list rotation).  `handle` is whether the socket handle is
valid; `connect_event` / `read_event` / `write_event` whether the
respective libevent registration exists; `readbuf` / `sendbuf` / `inbuf`
whether the buffer is allocated; `outbuf` the pending wire output as RISP
commands. -/
structure rq_conn_t where
  cid : Nat
  hostname : List Nat
  handle : Bool
  active : Nat
  closing : Nat
  shutdown : Nat
  connect_event : Bool
  read_event : Bool
  write_event : Bool
  readbuf : Bool
  sendbuf : Bool
  inbuf : Bool
  outbuf : List Cmd
  data : Option rq_data_t
deriving DecidableEq, Repr

/-- The client handle `rq_t`: connection list (head = preferred
controller), subscription list, and the message table fields `msg_list`,
`msg_used`, `msg_next` (the table capacity `msg_max` is
`msg_list.length`, since the C array is exactly that dense array).
`events` is the trace of user-callback invocations. -/
structure rq_t where
  connlist : List rq_conn_t
  queues : List rq_queue_t
  msg_list : List (Option rq_message_t)
  msg_used : Nat
  msg_next : Int
  events : List Ev
deriving DecidableEq, Repr

/-- Linear scan for the first free (NULL) slot, as performed by the
`for (i=0; i < rq->msg_max; i++)` loop of `rq_msg_new`
(librq.c:1545-1553). -/
def firstNil : List (Option rq_message_t) → Option Nat
  | [] => none
  | none :: _ => some 0
  | some _ :: t => (firstNil t).map (· + 1)

/-- Allocation `rq_msg_new(rq, conn)` (librq.c:1496-1570).  The free pool
(`msg_pool`) only recycles records whose contents are re-initialised from
scratch, so the model always starts from a fresh record.  Placement into
the message table follows the source exactly: if `msg_used < msg_max` and
the hint `msg_next >= 0` the record is placed at `msg_next` and the hint
cleared to `-1` (the guard `msg_list[msg_next]? = some none` combines the
asserts `msg_next < msg_max` and `msg_list[msg_next] == NULL`,
librq.c:1538-1539); else if `msg_used < msg_max` the first NULL slot found
by linear scan is used; else the array is grown by one and the new tail
slot used.  `msg->id` is the chosen index and `msg_used` is incremented.
If the scan finds no NULL slot the C loop simply falls through, leaving
the record unplaced with `id = -1` while still incrementing `msg_used`;
the model mirrors that. -/
def rq_msg_new (rq : rq_t) (conn : Option Nat) : Option (rq_t × rq_message_t) :=
  let msg : rq_message_t :=
    { id := -1, src_id := -1, broadcast := false, noreply := false
      state := .new, conn := conn, queue := none
      data := if conn.isSome then none else some [] }
  if rq.msg_used < rq.msg_list.length then
    if 0 ≤ rq.msg_next then
      let n := rq.msg_next.toNat
      if rq.msg_list[n]? = some none then
        let m := { msg with id := rq.msg_next }
        some ({ rq with msg_list := rq.msg_list.set n (some m)
                        msg_next := -1, msg_used := rq.msg_used + 1 }, m)
      else none
    else
      match firstNil rq.msg_list with
      | some i =>
        let m := { msg with id := (i : Int) }
        some ({ rq with msg_list := rq.msg_list.set i (some m)
                        msg_used := rq.msg_used + 1 }, m)
      | none =>
        some ({ rq with msg_used := rq.msg_used + 1 }, msg)
  else
    let m := { msg with id := (rq.msg_list.length : Int) }
    some ({ rq with msg_list := rq.msg_list ++ [some m]
                    msg_used := rq.msg_used + 1 }, m)

/-- Deallocation `rq_msg_clear(msg)` (librq.c:1577-1609), modelled by the
table index `mid` of the message being cleared.  The guards model the
asserts `msg_used > 0`, `0 <= msg->id < msg_max` and
`msg_list[msg->id] == msg`.  The slot is NULLed, the free-slot hint
`msg_next` is set to the freed id, and `msg_used` is decremented; the
record itself is reset and pushed onto the free pool (not modelled, see
`rq_msg_new`). -/
def rq_msg_clear (rq : rq_t) (mid : Nat) : Option rq_t :=
  if rq.msg_used = 0 then none
  else
    match rq.msg_list[mid]? with
    | some (some m) =>
      if m.id = (mid : Int) then
        some { rq with msg_list := rq.msg_list.set mid none
                       msg_next := (mid : Int), msg_used := rq.msg_used - 1 }
      else none
    | _ => none

/-- Look up the live message at table index `mid` (the C idiom
`rq->msg_list[mid]` under the bounds and non-NULL asserts). -/
def msgAt (rq : rq_t) (mid : Nat) : Option rq_message_t :=
  match rq.msg_list[mid]? with
  | some (some m) => some m
  | _ => none

/-- Checks the id-matches-slot condition for one table slot: the slot is
free, or the stored record's `id` equals the slot index.  (`o` is the
result of a `msg_list[i]?` lookup; out-of-range lookups count as
trivially ok.) -/
def slotOkB (o : Option (Option rq_message_t)) (i : Nat) : Bool :=
  match o with
  | some (some m) => m.id == (i : Int)
  | _ => true

/-- Message Table invariants (spec section 8 plus the free-slot-hint
validity that the allocation path asserts, librq.c:1538-1539): every
non-NULL slot stores a record whose `id` is its index; `msg_used` counts
the non-NULL slots; the table is non-empty (`rq_init` creates
`DEFAULT_MSG_ARRAY > 0` slots and the table never shrinks); and a
non-negative `msg_next` hint points at a NULL slot. -/
def TableInv (rq : rq_t) : Prop :=
  (∀ i, i < rq.msg_list.length → slotOkB rq.msg_list[i]? i = true)
  ∧ rq.msg_used = rq.msg_list.countP Option.isSome
  ∧ 0 < rq.msg_list.length
  ∧ (0 ≤ rq.msg_next → rq.msg_list[rq.msg_next.toNat]? = some none)

/-- Outbound send `rq_senddata(conn, data, length)` (librq.c:363-384):
append the bytes (here: commands) to `outbuf`, and make sure a persistent
write event is registered (the C code creates one only when none exists;
setting the flag to `true` is the same net effect). -/
def rq_senddata (c : rq_conn_t) (cmds : List Cmd) : rq_conn_t :=
  { c with outbuf := c.outbuf ++ cmds, write_event := true }

/-- The CONSUME command sequence assembled by `rq_send_consume`
(librq.c:727-733): `CLEAR, [EXCLUSIVE], QUEUE=name, MAX=max,
PRIORITY=priority, CONSUME`. -/
def consumeSeq (q : rq_queue_t) : List Cmd :=
  [Cmd.clear]
    ++ (if q.exclusive then [Cmd.exclusive] else [])
    ++ [Cmd.queue q.queue, Cmd.max q.max, Cmd.priority q.priority, Cmd.consume]

/-- Send one consume request `rq_send_consume(conn, queue)`
(librq.c:712-737): assert `queue->max >= 0` (librq.c:718) and
`0 < strlen(queue->queue) < 256` (librq.c:719) - a violated assert
aborts, modelled as `none`; note `rq_consume` checks only the upper
bound at registration (librq.c:941), so an empty-named Subscription is
registrable and this abort is reachable during replay.  Then assemble
the CONSUME sequence in the (asserted empty) scratch `sendbuf` and
flush it to `outbuf` via `rq_senddata`. -/
def rq_send_consume (c : rq_conn_t) (q : rq_queue_t) : Option rq_conn_t :=
  if 0 ≤ q.max ∧ 0 < q.queue.length ∧ q.queue.length < 256 then
    some (rq_senddata c (consumeSeq q))
  else none

/-- The subscription-replay loop of `rq_connect_handler`
(librq.c:818-822): send one CONSUME sequence per registered Subscription,
in list order; an assert firing inside `rq_send_consume` aborts the
whole replay. -/
def replayConsume (qs : List rq_queue_t) (c : rq_conn_t) : Option rq_conn_t :=
  match qs with
  | [] => some c
  | q :: r =>
    match rq_send_consume c q with
    | none => none
    | some c2 => replayConsume r c2

/-- Dereference a connection pointer: find the connection with the given
`cid` in the connection list. -/
def connAt (l : List rq_conn_t) (cid : Nat) : Option rq_conn_t :=
  l.find? (fun c => c.cid == cid)

/-- Mutation through a connection pointer: apply `f` to the (first)
connection with the given `cid`, leaving every other list entry and the
list order unchanged. -/
def updConnAt (l : List rq_conn_t) (cid : Nat) (f : rq_conn_t → rq_conn_t) :
    List rq_conn_t :=
  match l with
  | [] => []
  | c :: r => if c.cid = cid then f c :: r else c :: updConnAt r cid f

/-- Connect initiation `rq_connect(rq)` (librq.c:220-274).  Only the head
of the connection list is ever attempted, and only when it is not
shutdown, not closing, has no pending connect event and is not active; in
that case a non-blocking socket is created (`connect` returning
EINPROGRESS) and a one-shot connect event is registered.  The guards
inside the taken branch model the asserts on the head's state (no events,
invalid handle, no buffers, no accumulator); hostname parsing and the
socket syscalls are environment steps modelled as succeeding. -/
def rq_connect (rq : rq_t) : Option rq_t :=
  match rq.connlist with
  | [] => none
  | c :: rest =>
    if c.shutdown = 0 ∧ c.closing = 0 ∧ c.connect_event = false ∧ c.active = 0 then
      if c.hostname ≠ [] ∧ c.read_event = false ∧ c.write_event = false ∧
          c.handle = false ∧ c.inbuf = false ∧ c.readbuf = false ∧ c.data = none then
        let c2 := { c with handle := true, connect_event := true }
        some { rq with connlist := c2 :: rest }
      else none
    else some rq

/-- Connection-loss handling `rq_conn_closed(conn)` (librq.c:282-358):
close the socket, free `readbuf` and `sendbuf` (asserted present and
empty - note these are allocated only on activation), free `inbuf`, clear
`outbuf`, free the accumulator, rotate the connection to the tail when the
list has more than one entry, drop the read/write events (the connect
event is asserted absent), abort (`assert(0)`) if any live message still
references this connection, reset `active`/`closing`, and finally attempt
`rq_connect` on the new head. -/
def rq_conn_closed (rq : rq_t) (cid : Nat) : Option rq_t :=
  match rq.connlist.findIdx? (fun c => c.cid == cid) with
  | none => none
  | some i =>
    match rq.connlist[i]? with
    | none => none
    | some c =>
      if c.handle = true ∧ c.readbuf = true ∧ c.sendbuf = true ∧
          c.connect_event = false then
        if rq.msg_used > 0 ∧ rq.msg_list.any
            (fun o => match o with
                      | some m => m.conn == some cid
                      | none => false) then
          none
        else
          let c2 := { c with handle := false, readbuf := false, sendbuf := false
                             inbuf := false, outbuf := []
                             data := none, read_event := false
                             write_event := false, active := 0, closing := 0 }
          let l2 := if rq.connlist.length > 1
                    then rq.connlist.eraseIdx i ++ [c2]
                    else [c2]
          rq_connect { rq with connlist := l2 }
      else none

/-- Errno value for a refused TCP connection, the only connect error the
library singles out (librq.c:762). -/
def ECONNREFUSED : Nat := 111

/-- The connect-completion callback `rq_connect_handler(fd, flags, arg)`
(librq.c:740-827), parametrised by the `SO_ERROR` value read via
`getsockopt`.  The one-shot connect event is freed; on ECONNREFUSED the
connection is closed via `rq_conn_closed`; on ANY other value (including
other nonzero socket errors) the connection is marked active, `readbuf`,
`sendbuf` and the parameter accumulator are allocated, a persistent read
event is registered, a write event is registered when `outbuf` already
has pending data, and one CONSUME sequence is sent for every registered
Subscription.  The trailing `rq_process_read(conn)` call consumes bytes
already readable on the fresh socket; nothing has been received yet, so
`read` yields EAGAIN and the call leaves the state unchanged
(librq.c:648-656). -/
def rq_connect_handler (rq : rq_t) (cid : Nat) (soErr : Nat) : Option rq_t :=
  match connAt rq.connlist cid with
  | none => none
  | some c =>
    if c.connect_event = true ∧ c.handle = true then
      let l1 := updConnAt rq.connlist cid (fun c0 => { c0 with connect_event := false })
      let rq1 := { rq with connlist := l1 }
      if soErr = ECONNREFUSED then
        if c.active = 0 ∧ c.closing = 0 ∧ c.data = none then
          rq_conn_closed rq1 cid
        else none
      else
        if c.active = 0 ∧ c.readbuf = false ∧ c.sendbuf = false ∧
            c.inbuf = false ∧ c.data = none ∧ c.read_event = false ∧
            (c.outbuf ≠ [] → c.write_event = false) then
          let c1 := { c with connect_event := false, active := c.active + 1
                             readbuf := true, sendbuf := true
                             data := some rq_data_init, read_event := true
                             write_event :=
                               if c.outbuf ≠ [] then true else c.write_event }
          match replayConsume rq.queues c1 with
          | none => none
          | some c2 =>
            some { rq with connlist := updConnAt rq.connlist cid (fun _ => c2) }
        else none
    else none

/-- Subscription lookup of `cmdRequest` (librq.c:1120-1134).  For each
list entry the code asserts `tmp->qid > 0` and then evaluates
`qid == tmp->qid || strcmp(qname, tmp->queue) == 0`.  When the request was
addressed by queue-id only, `qname` is NULL, so whenever the first test
fails the `strcmp` dereferences NULL - undefined behaviour, modelled as a
crash (`none`).  `some none` is "no subscription matches", `some (some q)`
is the first match. -/
def rq_find_queue (qid : Nat) (qname : Option (List Nat)) :
    List rq_queue_t → Option (Option rq_queue_t)
  | [] => some none
  | t :: rest =>
    if t.qid = 0 then none
    else if qid = t.qid then some (some t)
    else
      match qname with
      | none => none
      | some s =>
        if s = t.queue then some (some t) else rq_find_queue qid qname rest

/-- Model of `conn->data->payload = NULL` (librq.c:1176): the accumulator
relinquishes ownership of the payload buffer. -/
def clearPayload (c0 : rq_conn_t) : rq_conn_t :=
  { c0 with data := c0.data.map (fun dd => { dd with payload := none }) }

/-- Delivery setup of `cmdRequest` for a matched Subscription
(librq.c:1146-1179, up to and including the transition to `delivering`):
reply `CLEAR, ID, DELIVERED` on the connection, allocate an inbound
message via `rq_msg_new` (asserted to have been placed, `msg->id >= 0`),
set `src_id` to the wire id, copy the NOREPLY flag, move the (asserted
non-NULL) accumulator payload into the message, mark it `delivering`, and
record the imminent handler invocation in the event trace.  Returns the
state handed to the Subscription handler together with the message's
table index. -/
def requestDeliver (rq : rq_t) (cid : Nat) (d : rq_data_t)
    (q : rq_queue_t) : Option (rq_t × Nat) :=
  let l1 := updConnAt rq.connlist cid
    (fun c0 => rq_senddata c0 [Cmd.clear, Cmd.id (d.id : Int), Cmd.delivered])
  let rq1 := { rq with connlist := l1 }
  match rq_msg_new rq1 (some cid) with
  | none => none
  | some (rq2, m0) =>
    if 0 ≤ m0.id then
      match d.payload with
      | none => none
      | some p =>
        let mid := m0.id.toNat
        let m1 := { m0 with src_id := (d.id : Int)
                            noreply := d.flagNoreply
                            data := some p, state := rq_msgstate.delivering }
        let l2 := updConnAt rq2.connlist cid clearPayload
        some ({ rq2 with connlist := l2
                         msg_list := rq2.msg_list.set mid (some m1)
                         events := rq2.events ++ [Ev.handler q.queue mid] },
              mid)
    else none

/-- The REQUEST verb handler `cmdRequest` (librq.c:1093-1206),
parametrised by the Subscription handler's behaviour `hf` (user code run
with the freshly delivered message, which may re-enter the library, e.g.
via `rq_reply`; its invocation is also recorded in the event trace).
Requires ID, PAYLOAD and exactly one of QUEUEID / QUEUE in the
accumulator (asserted).  If no Subscription matches the queue, reply
`CLEAR, ID, UNDELIVERED`.  Otherwise reply `CLEAR, ID, DELIVERED`,
allocate an inbound message, move the accumulator payload into it
(asserted non-NULL), set `src_id`, copy the NOREPLY flag, mark it
`delivering`, and invoke the handler.  Afterwards clear the message if
its `noreply` flag is set or its state is `replied` (reading the fields
through the retained pointer, i.e. the table slot); otherwise mark it
`delivered` and keep it. -/
def cmdRequest (hf : rq_t → Nat → rq_t) (rq : rq_t) (cid : Nat) : Option rq_t :=
  match connAt rq.connlist cid with
  | none => none
  | some c =>
  match c.data with
  | none => none
  | some d =>
    if d.maskId && d.maskPayload && (d.maskQueueId || d.maskQueue) then
      let msgid := d.id
      let qid := if d.maskQueueId then d.qid else 0
      let qname : Option (List Nat) := if d.maskQueue then some d.queue else none
      if (qname.isNone && decide (0 < qid)) || (qname.isSome && decide (qid = 0)) then
        match rq_find_queue qid qname rq.queues with
        | none => none
        | some none =>
          let l1 := updConnAt rq.connlist cid
            (fun c0 => rq_senddata c0 [Cmd.clear, Cmd.id (msgid : Int), Cmd.undelivered])
          some { rq with connlist := l1 }
        | some (some q) =>
          match requestDeliver rq cid d q with
          | none => none
          | some (s1, mid) =>
            let s2 := hf s1 mid
            match msgAt s2 mid with
            | none => none
            | some m2 =>
              if m2.noreply then rq_msg_clear s2 mid
              else if m2.state = .replied then rq_msg_clear s2 mid
              else
                let m3 := { m2 with state := rq_msgstate.delivered }
                some { s2 with msg_list := s2.msg_list.set mid (some m3) }
      else none
    else none

/-- Walk of the Subscription list performed by `cmdConsuming`
(librq.c:1066-1085): find the first entry whose name equals the
acknowledged queue name, record the assigned queue-id (asserted to have
been 0), fire the `accepted` callback if present, and stop.  Entries
before the match are rebuilt unchanged; if nothing matches the list is
returned as it was and no callback fires. -/
def consumingUpd (qname : List Nat) (qid : Nat) :
    List rq_queue_t → Option (List rq_queue_t × List Ev)
  | [] => some ([], [])
  | q :: rest =>
    if q.queue = qname then
      if q.qid = 0 then
        some ({ q with qid := qid } :: rest,
              if q.accepted then [Ev.accepted qname qid] else [])
      else none
    else
      match consumingUpd qname qid rest with
      | none => none
      | some (r, evs) => some (q :: r, evs)

/-- The CONSUMING verb handler `cmdConsuming` (librq.c:1047-1091):
requires QUEUEID and QUEUE in the accumulator (else `assert(0)`), asserts
`qid > 0` and a non-empty Subscription list, then updates the matching
Subscription via the list walk. -/
def cmdConsuming (rq : rq_t) (cid : Nat) : Option rq_t :=
  match connAt rq.connlist cid with
  | none => none
  | some c =>
  match c.data with
  | none => none
  | some d =>
    if d.maskQueueId && d.maskQueue then
      if 0 < d.qid then
        if rq.queues ≠ [] then
          match consumingUpd d.queue d.qid rq.queues with
          | none => none
          | some (qs, evs) =>
            some { rq with queues := qs, events := rq.events ++ evs }
        else none
      else none
    else none

/-- The REPLY command sequence assembled by `rq_reply`
(librq.c:1749-1755): `CLEAR, ID=src_id, [PAYLOAD], REPLY`, the PAYLOAD
present exactly when the reply data is non-empty. -/
def replySeq (sid : Int) (repl : List Nat) : List Cmd :=
  [Cmd.clear, Cmd.id sid]
    ++ (if repl = [] then [] else [Cmd.payload repl])
    ++ [Cmd.reply]

/-- Recognises the terminal REPLY verb within a command sequence. -/
def isReplyCmd : Cmd → Bool
  | Cmd.reply => true
  | _ => false

/-- The public reply operation `rq_reply(msg, length, data)`
(librq.c:1728-1768), with the message given by its table index and the
reply data by `repl` (empty list = `length == 0, data == NULL`).  The
guards model the asserts: inbound message (`conn` set), nonnegative ids,
not broadcast, not noreply, no target queue, state `delivering` or
`delivered`, data buffer present.  The REPLY sequence is emitted on the
message's own connection; then a message in state `delivered` is cleared
immediately, while one in state `delivering` is marked `replied` for the
handler's caller to clear. -/
def rq_reply (rq : rq_t) (mid : Nat) (repl : List Nat) : Option rq_t :=
  match msgAt rq mid with
  | none => none
  | some m =>
  match m.conn with
  | none => none
  | some cid =>
    match connAt rq.connlist cid with
    | none => none
    | some _ =>
      if 0 ≤ m.id ∧ 0 ≤ m.src_id ∧ m.broadcast = false ∧ m.noreply = false ∧
          m.queue = none ∧
          (m.state = rq_msgstate.delivering ∨ m.state = rq_msgstate.delivered) ∧
          m.data.isSome then
        let l1 := updConnAt rq.connlist cid
          (fun c0 => rq_senddata c0 (replySeq m.src_id repl))
        let rq1 := { rq with connlist := l1 }
        if m.state = rq_msgstate.delivered then rq_msg_clear rq1 mid
        else
          let m2 := { m with state := rq_msgstate.replied }
          some { rq1 with msg_list := rq1.msg_list.set mid (some m2) }
      else none

/-- The CLOSING verb handler `cmdClosing` (librq.c:1333-1347): mark the
connection closing (asserted not already closing) and call `rq_connect` to
initiate a connection to an alternative controller.  Note that
`rq_connect` only examines the head of the connection list. -/
def cmdClosing (rq : rq_t) (cid : Nat) : Option rq_t :=
  match connAt rq.connlist cid with
  | none => none
  | some c =>
    match c.data with
    | none => none
    | some _ =>
      if c.closing = 0 then
        let l1 := updConnAt rq.connlist cid (fun c0 => { c0 with closing := c0.closing + 1 })
        rq_connect { rq with connlist := l1 }
      else none

/-! Concrete states used by the witness and counterexample theorems.
Queue names and payloads are concrete byte lists; `mkMsg` builds a record
exactly as a live inbound/outbound message looks in the table. -/

/-- A registered, acknowledged Subscription for queue `[113, 49]`. -/
def subQ1 : rq_queue_t :=
  { queue := [113, 49], qid := 3, exclusive := false, max := 10, priority := 2
    accepted := false }

/-- A connection record with every dynamic attribute off (as right after
`rq_addcontroller`, librq.c:876-898). -/
def connBase : rq_conn_t :=
  { cid := 0, hostname := [104], handle := false, active := 0, closing := 0
    shutdown := 0, connect_event := false, read_event := false
    write_event := false, readbuf := false, sendbuf := false, inbuf := false
    outbuf := [], data := none }

/-- An activated connection (buffers and accumulator allocated, read event
registered) with the given `cid` and accumulator. -/
def connActive (cid : Nat) (d : Option rq_data_t) : rq_conn_t :=
  { connBase with cid := cid, handle := true, active := 1, read_event := true
                  readbuf := true, sendbuf := true, data := d }

/-- A connection with a connect in progress (socket created, one-shot
connect event registered). -/
def connConnecting (cid : Nat) : rq_conn_t :=
  { connBase with cid := cid, handle := true, connect_event := true }

/-- A live message record stored at slot `i`: inbound (with `conn = some
cc`) when `inb`, in the given state. -/
def mkMsg (i : Int) (inb : Bool) (cc : Nat) (st : rq_msgstate) (nr : Bool) :
    rq_message_t :=
  { id := i, src_id := if inb then 7 else -1, broadcast := false, noreply := nr
    state := st, conn := if inb then some cc else none, queue := none
    data := some [104, 105] }

/-- Accumulator holding a complete queue-name-addressed REQUEST
(`ID=7, QUEUE=[113,49], PAYLOAD=[104,105]`). -/
def dReqName : rq_data_t :=
  { rq_data_init with maskId := true, maskPayload := true, maskQueue := true
                      id := 7, queue := [113, 49], payload := some [104, 105] }

/-- Accumulator holding a queue-id-addressed REQUEST
(`ID=7, QUEUEID=5, PAYLOAD=[104,105]`). -/
def dReqQid : rq_data_t :=
  { rq_data_init with maskId := true, maskPayload := true, maskQueueId := true
                      id := 7, qid := 5, payload := some [104, 105] }

/-- Client state for the C1 witness: one active connection, one
acknowledged Subscription matching the accumulated queue name, an empty
one-slot message table. -/
def c1rq : rq_t :=
  { connlist := [connActive 0 (some dReqName)], queues := [subQ1]
    msg_list := [none], msg_used := 0, msg_next := 0, events := [] }

/-- Client state for the C1 counterexample: a queue-id-addressed REQUEST
where the matching Subscription (qid 5) is second in the list, so the
lookup reaches `strcmp(NULL, ...)`. -/
def c1bad : rq_t :=
  { connlist := [connActive 0 (some dReqQid)]
    queues := [subQ1, { subQ1 with queue := [98], qid := 5 }]
    msg_list := [none], msg_used := 0, msg_next := 0, events := [] }

/-- Client state for the C2 witness: one inbound message in state
`delivering` at slot 0, owned by connection 0. -/
def c2rq : rq_t :=
  { connlist := [connActive 0 (some rq_data_init)], queues := [subQ1]
    msg_list := [some (mkMsg 0 true 0 rq_msgstate.delivering false)]
    msg_used := 1, msg_next := -1, events := [] }

/-- Client state for the C2 counterexample: as `c2rq` but the inbound
delivering message has its `noreply` flag set. -/
def c2bad : rq_t :=
  { connlist := [connActive 0 (some rq_data_init)], queues := [subQ1]
    msg_list := [some (mkMsg 0 true 0 rq_msgstate.delivering true)]
    msg_used := 1, msg_next := -1, events := [] }

/-- Client state for the C3 witness: a queue-name-addressed REQUEST for
name `[1, 2]`, which no registered Subscription consumes. -/
def c3rq : rq_t :=
  { connlist := [connActive 0 (some { dReqName with queue := [1, 2] })]
    queues := [subQ1]
    msg_list := [none], msg_used := 0, msg_next := 0, events := [] }

/-- Client state for the C3 counterexample: a queue-id-addressed REQUEST
(qid 5) with one registered Subscription of a different qid, so the
lookup reaches `strcmp(NULL, ...)` instead of replying UNDELIVERED. -/
def c3bad : rq_t :=
  { connlist := [connActive 0 (some dReqQid)], queues := [subQ1]
    msg_list := [none], msg_used := 0, msg_next := 0, events := [] }

/-- Message table state for the C4 witness: slots 0 and 1 occupied, slot 2
free, hint pointing at slot 2. -/
def c4rq : rq_t :=
  { connlist := [], queues := []
    msg_list := [some (mkMsg 0 false 0 rq_msgstate.new false),
                 some (mkMsg 1 false 0 rq_msgstate.new false), none]
    msg_used := 2, msg_next := 2, events := [] }

/-- Table for the C5 witness, hint branch: `used < max` and `next = 0`. -/
def c5a : rq_t :=
  { connlist := [], queues := []
    msg_list := [none, some (mkMsg 1 false 0 rq_msgstate.new false)]
    msg_used := 1, msg_next := 0, events := [] }

/-- Table for the C5 witness, scan branch: `used < max`, `next = -1`,
first free slot at index 1. -/
def c5b : rq_t :=
  { connlist := [], queues := []
    msg_list := [some (mkMsg 0 false 0 rq_msgstate.new false), none]
    msg_used := 1, msg_next := -1, events := [] }

/-- Table for the C5 witness, growth branch: every slot occupied. -/
def c5c : rq_t :=
  { connlist := [], queues := []
    msg_list := [some (mkMsg 0 false 0 rq_msgstate.new false)]
    msg_used := 1, msg_next := -1, events := [] }

/-- Client state for the C6 witness: one connection mid-connect, two
registered Subscriptions (one exclusive). -/
def c6rq : rq_t :=
  { connlist := [connConnecting 0]
    queues := [{ subQ1 with exclusive := true },
               { subQ1 with queue := [122], qid := 4 }]
    msg_list := [none], msg_used := 0, msg_next := 0, events := [] }

/-- Client state for the C8 failing input: connection 1 active at the
head (a CLOSING verb is about to arrive on it), connection 2 idle. -/
def c8rq : rq_t :=
  { connlist := [connActive 1 (some rq_data_init), { connBase with cid := 2 }]
    queues := [], msg_list := [none], msg_used := 0, msg_next := 0
    events := [] }

/-- Client state for the C10 witness: a CONSUMING acknowledgement for
queue name `[3, 4]` (qid 9) which matches no registered Subscription. -/
def c10rq : rq_t :=
  { connlist := [connActive 0 (some { rq_data_init with
      maskQueueId := true, maskQueue := true, qid := 9, queue := [3, 4] })]
    queues := [subQ1]
    msg_list := [none], msg_used := 0, msg_next := 0, events := [] }

/-! Helper lemmas about list slots, counting, and the model's small
list-manipulating functions. -/

theorem lt_of_slot {α : Type} {l : List α} {i : Nat} {x : α}
    (h : l[i]? = some x) : i < l.length := by
  by_contra hn
  rw [List.getElem?_eq_none_iff.mpr (Nat.le_of_not_lt hn)] at h
  cases h

theorem countP_set_some {m : rq_message_t} :
    ∀ {l : List (Option rq_message_t)} {i : Nat}, l[i]? = some none →
      (l.set i (some m)).countP Option.isSome = l.countP Option.isSome + 1 := by
  intro l
  induction l with
  | nil => intro i h; simp at h
  | cons a t ih =>
    intro i h
    cases i with
    | zero =>
      simp only [List.getElem?_cons_zero, Option.some.injEq] at h
      subst h
      simp [List.countP_cons]
    | succ j =>
      simp only [List.getElem?_cons_succ] at h
      simp only [List.set_cons_succ, List.countP_cons, ih h]
      omega

theorem countP_set_none {m : rq_message_t} :
    ∀ {l : List (Option rq_message_t)} {i : Nat}, l[i]? = some (some m) →
      (l.set i none).countP Option.isSome + 1 = l.countP Option.isSome := by
  intro l
  induction l with
  | nil => intro i h; simp at h
  | cons a t ih =>
    intro i h
    cases i with
    | zero =>
      simp only [List.getElem?_cons_zero, Option.some.injEq] at h
      subst h
      simp [List.countP_cons]
    | succ j =>
      simp only [List.getElem?_cons_succ] at h
      simp only [List.set_cons_succ, List.countP_cons]
      have := ih h
      omega

theorem countP_lt_of_none :
    ∀ {l : List (Option rq_message_t)} {k : Nat}, l[k]? = some none →
      l.countP Option.isSome < l.length := by
  intro l
  induction l with
  | nil => intro k h; simp at h
  | cons a t ih =>
    intro k h
    cases k with
    | zero =>
      simp only [List.getElem?_cons_zero, Option.some.injEq] at h
      subst h
      simp only [List.countP_cons, List.length_cons, Option.isSome_none,
        Bool.false_eq_true, if_false]
      exact Nat.lt_succ_of_le (List.countP_le_length _)
    | succ j =>
      simp only [List.getElem?_cons_succ] at h
      have h1 := ih h
      simp only [List.countP_cons, List.length_cons]
      cases ha : a.isSome <;> simp <;> omega

theorem countP_pos_of_slot {l : List (Option rq_message_t)} {i : Nat}
    {m : rq_message_t} (h : l[i]? = some (some m)) :
    0 < l.countP Option.isSome :=
  List.countP_pos_iff.mpr ⟨some m, List.getElem?_mem h, rfl⟩

theorem firstNil_spec :
    ∀ {l : List (Option rq_message_t)} {i : Nat},
      firstNil l = some i → l[i]? = some none := by
  intro l
  induction l with
  | nil => intro i h; simp [firstNil] at h
  | cons a t ih =>
    intro i h
    cases a with
    | none =>
      simp only [firstNil, Option.some.injEq] at h
      subst h
      simp
    | some m =>
      cases hf : firstNil t with
      | none => rw [firstNil, hf] at h; cases h
      | some j =>
        rw [firstNil, hf] at h
        simp only [Option.map] at h
        injection h with h
        subst h
        simpa using ih hf

theorem firstNil_min :
    ∀ {l : List (Option rq_message_t)} {i : Nat},
      firstNil l = some i → ∀ j, j < i → l[j]? ≠ some none := by
  intro l
  induction l with
  | nil => intro i h; simp [firstNil] at h
  | cons a t ih =>
    intro i h j hj
    cases a with
    | none =>
      simp only [firstNil, Option.some.injEq] at h
      omega
    | some m =>
      cases hf : firstNil t with
      | none => rw [firstNil, hf] at h; cases h
      | some k =>
        rw [firstNil, hf] at h
        simp only [Option.map] at h
        injection h with h
        subst h
        cases j with
        | zero => simp
        | succ j2 =>
          simp only [List.getElem?_cons_succ]
          exact ih hf j2 (by omega)

theorem firstNil_of_count {l : List (Option rq_message_t)}
    (h : l.countP Option.isSome < l.length) : ∃ i, firstNil l = some i := by
  induction l with
  | nil => simp at h
  | cons a t ih =>
    cases a with
    | none => exact ⟨0, rfl⟩
    | some m =>
      simp only [List.countP_cons, List.length_cons, Option.isSome_some,
        if_true] at h
      obtain ⟨j, hj⟩ := ih (by omega)
      exact ⟨j + 1, by rw [firstNil, hj]; rfl⟩

theorem slotOk_id {o : Option (Option rq_message_t)} {i : Nat}
    {m : rq_message_t} (h : slotOkB o i = true) (hm : o = some (some m)) :
    m.id = (i : Int) := by
  subst hm
  simpa [slotOkB] using h

theorem connAt_cid {l : List rq_conn_t} {cid : Nat} {c : rq_conn_t}
    (h : connAt l cid = some c) : c.cid = cid := by
  have := List.find?_some h
  simpa using this

theorem connAt_upd (l : List rq_conn_t) (cid : Nat) (f : rq_conn_t → rq_conn_t)
    (hf : ∀ c0, c0.cid = cid → (f c0).cid = c0.cid) :
    connAt (updConnAt l cid f) cid = (connAt l cid).map f := by
  induction l with
  | nil => rfl
  | cons a t ih =>
    by_cases ha : a.cid = cid
    · rw [connAt, updConnAt, if_pos ha,
        List.find?_cons_of_pos _ (by simp [hf a ha, ha]),
        connAt, List.find?_cons_of_pos _ (by simp [ha])]
      rfl
    · rw [connAt, updConnAt, if_neg ha, List.find?_cons_of_neg _ (by simp [ha]),
        connAt, List.find?_cons_of_neg _ (by simp [ha])]
      exact ih

theorem connAt_upd_other (l : List rq_conn_t) (cid : Nat) (f : rq_conn_t → rq_conn_t)
    (hf : ∀ c0, c0.cid = cid → (f c0).cid = c0.cid) (j : Nat) (hj : j ≠ cid) :
    connAt (updConnAt l cid f) j = connAt l j := by
  induction l with
  | nil => rfl
  | cons a t ih =>
    by_cases ha : a.cid = cid
    · have hfa : (f a).cid = a.cid := hf a ha
      by_cases hb : a.cid = j
      · omega
      · rw [connAt, updConnAt, if_pos ha, List.find?_cons_of_neg _ (by simp [hfa, hb]),
          connAt, List.find?_cons_of_neg _ (by simp [hb])]
    · by_cases hb : a.cid = j
      · rw [connAt, updConnAt, if_neg ha, List.find?_cons_of_pos _ (by simp [hb]),
          connAt, List.find?_cons_of_pos _ (by simp [hb])]
      · rw [connAt, updConnAt, if_neg ha, List.find?_cons_of_neg _ (by simp [hb]),
          connAt, List.find?_cons_of_neg _ (by simp [hb])]
        exact ih

theorem replayConsume_sound (qs : List rq_queue_t) :
    ∀ c : rq_conn_t,
      (∀ q ∈ qs, 0 ≤ q.max ∧ 0 < q.queue.length ∧ q.queue.length < 256) →
      ∃ c2, replayConsume qs c = some c2 ∧
        c2.outbuf = c.outbuf ++ (qs.map consumeSeq).flatten ∧
        c2.cid = c.cid ∧ c2.active = c.active ∧ c2.data = c.data ∧
        c2.read_event = c.read_event ∧ c2.handle = c.handle ∧
        c2.readbuf = c.readbuf ∧ c2.sendbuf = c.sendbuf := by
  induction qs with
  | nil =>
    intro c _
    exact ⟨c, rfl, by simp, rfl, rfl, rfl, rfl, rfl, rfl, rfl⟩
  | cons q r ih =>
    intro c hq
    obtain ⟨c2, hrep, hout, hcid, hact, hdat, hre, hh, hrb, hsb⟩ :=
      ih (rq_senddata c (consumeSeq q)) (fun x hx => hq x (by simp [hx]))
    refine ⟨c2, ?_, ?_, hcid, hact, hdat, hre, hh, hrb, hsb⟩
    · rw [replayConsume, rq_send_consume, if_pos (hq q (by simp))]
      exact hrep
    · rw [hout]
      show (c.outbuf ++ consumeSeq q) ++ (r.map consumeSeq).flatten = _
      simp [List.append_assoc]

theorem consumingUpd_nomatch (qname : List Nat) (qid : Nat) :
    ∀ qs : List rq_queue_t, (∀ q ∈ qs, q.queue ≠ qname) →
      consumingUpd qname qid qs = some (qs, []) := by
  intro qs
  induction qs with
  | nil => intro h; rfl
  | cons q r ih =>
    intro h
    rw [consumingUpd, if_neg (h q (by simp)), ih (fun x hx => h x (by simp [hx]))]

theorem rq_find_queue_name_none (nm : List Nat) :
    ∀ qs : List rq_queue_t, (∀ q ∈ qs, 0 < q.qid) → (∀ q ∈ qs, q.queue ≠ nm) →
      rq_find_queue 0 (some nm) qs = some none := by
  intro qs
  induction qs with
  | nil => intro _ _; rfl
  | cons q r ih =>
    intro hq hn
    have h1 : 0 < q.qid := hq q (by simp)
    rw [rq_find_queue, if_neg (by omega), if_neg (by omega)]
    show (if nm = q.queue then some (some q) else rq_find_queue 0 (some nm) r) = _
    rw [if_neg (fun he => hn q (by simp) he.symm)]
    exact ih (fun x hx => hq x (by simp [hx])) (fun x hx => hn x (by simp [hx]))

theorem rq_find_queue_name_some (nm : List Nat) :
    ∀ qs : List rq_queue_t, (∀ q ∈ qs, 0 < q.qid) →
      (∃ q ∈ qs, q.queue = nm) →
      ∃ q0, rq_find_queue 0 (some nm) qs = some (some q0) ∧ q0.queue = nm ∧
        q0 ∈ qs := by
  intro qs
  induction qs with
  | nil => intro _ h; simp at h
  | cons q r ih =>
    intro hq hex
    have h1 : 0 < q.qid := hq q (by simp)
    by_cases he : q.queue = nm
    · refine ⟨q, ?_, he, by simp⟩
      rw [rq_find_queue, if_neg (by omega), if_neg (by omega)]
      show (if nm = q.queue then some (some q) else rq_find_queue 0 (some nm) r) = _
      rw [if_pos he.symm]
    · have hex2 : ∃ x ∈ r, x.queue = nm := by
        obtain ⟨x, hx, hxe⟩ := hex
        rcases List.mem_cons.mp hx with h | h
        · exact absurd (h ▸ hxe) he
        · exact ⟨x, h, hxe⟩
      obtain ⟨q0, hfind, hname, hmem⟩ :=
        ih (fun x hx => hq x (by simp [hx])) hex2
      refine ⟨q0, ?_, hname, by simp [hmem]⟩
      rw [rq_find_queue, if_neg (by omega), if_neg (by omega)]
      show (if nm = q.queue then some (some q) else rq_find_queue 0 (some nm) r) = _
      rw [if_neg (fun hee => he hee.symm)]
      exact hfind

theorem rq_msg_new_sound (rq : rq_t) (conn : Option Nat) (hinv : TableInv rq) :
    ∃ rq2 m,
      rq_msg_new rq conn = some (rq2, m) ∧
      0 ≤ m.id ∧
      rq2.msg_list[m.id.toNat]? = some (some m) ∧
      m.src_id = -1 ∧ m.state = rq_msgstate.new ∧ m.conn = conn ∧
      m.broadcast = false ∧ m.noreply = false ∧ m.queue = none ∧
      m.data = (if conn.isSome then none else some []) ∧
      rq2.msg_used = rq.msg_used + 1 ∧
      rq2.connlist = rq.connlist ∧ rq2.queues = rq.queues ∧
      rq2.events = rq.events ∧
      TableInv rq2 := by
  obtain ⟨hs, hc, hl, hn⟩ := hinv
  by_cases h1 : rq.msg_used < rq.msg_list.length
  · by_cases h2 : 0 ≤ rq.msg_next
    · -- hint branch: place at msg_next
      have hslot := hn h2
      have hlt : rq.msg_next.toNat < rq.msg_list.length := lt_of_slot hslot
      have heq : rq_msg_new rq conn = some
          ({ rq with
              msg_list := rq.msg_list.set rq.msg_next.toNat (some
                { id := rq.msg_next, src_id := -1, broadcast := false
                  noreply := false, state := rq_msgstate.new, conn := conn
                  queue := none
                  data := if conn.isSome then none else some [] })
              msg_next := -1, msg_used := rq.msg_used + 1 },
            { id := rq.msg_next, src_id := -1, broadcast := false
              noreply := false, state := rq_msgstate.new, conn := conn
              queue := none
              data := if conn.isSome then none else some [] }) := by
        unfold rq_msg_new
        rw [if_pos h1, if_pos h2, if_pos hslot]
      refine ⟨_, _, heq, h2, ?_, rfl, rfl, rfl, rfl, rfl, rfl, rfl, rfl, rfl,
        rfl, rfl, ?_, ?_, ?_, ?_⟩
      · simpa using List.getElem?_set_eq (a := some _) hlt
      · intro i hi
        rw [List.length_set] at hi
        by_cases hii : i = rq.msg_next.toNat
        · subst hii
          rw [List.getElem?_set_eq hlt]
          simp [slotOkB, Int.toNat_of_nonneg h2]
        · rw [List.getElem?_set_ne (fun he => hii he.symm)]
          exact hs i hi
      · simpa [countP_set_some hslot] using hc
      · simpa using hl
      · intro hcontra
        simp at hcontra
    · -- scan branch: place at the first free slot
      obtain ⟨i, hi⟩ := firstNil_of_count (hc ▸ h1)
      have hslot := firstNil_spec hi
      have hlt : i < rq.msg_list.length := lt_of_slot hslot
      have heq : rq_msg_new rq conn = some
          ({ rq with
              msg_list := rq.msg_list.set i (some
                { id := (i : Int), src_id := -1, broadcast := false
                  noreply := false, state := rq_msgstate.new, conn := conn
                  queue := none
                  data := if conn.isSome then none else some [] })
              msg_used := rq.msg_used + 1 },
            { id := (i : Int), src_id := -1, broadcast := false
              noreply := false, state := rq_msgstate.new, conn := conn
              queue := none
              data := if conn.isSome then none else some [] }) := by
        unfold rq_msg_new
        rw [if_pos h1, if_neg h2, hi]
      refine ⟨_, _, heq, Int.natCast_nonneg i, ?_, rfl, rfl, rfl, rfl, rfl,
        rfl, rfl, rfl, rfl, rfl, rfl, ?_, ?_, ?_, ?_⟩
      · simpa using List.getElem?_set_eq (a := some _) hlt
      · intro k hk
        rw [List.length_set] at hk
        by_cases hkk : k = i
        · subst hkk
          rw [List.getElem?_set_eq hlt]
          simp [slotOkB]
        · rw [List.getElem?_set_ne (fun he => hkk he.symm)]
          exact hs k hk
      · simpa [countP_set_some hslot] using hc
      · simpa using hl
      · intro hcontra
        exact absurd hcontra h2
  · -- growth branch: append a new tail slot
    have hle : rq.msg_list.length ≤ rq.msg_used := Nat.le_of_not_lt h1
    have hfull : rq.msg_used = rq.msg_list.length :=
      Nat.le_antisymm (hc ▸ List.countP_le_length _) hle
    have heq : rq_msg_new rq conn = some
        ({ rq with
            msg_list := rq.msg_list ++ [some
              { id := (rq.msg_list.length : Int), src_id := -1
                broadcast := false, noreply := false
                state := rq_msgstate.new, conn := conn, queue := none
                data := if conn.isSome then none else some [] }]
            msg_used := rq.msg_used + 1 },
          { id := (rq.msg_list.length : Int), src_id := -1, broadcast := false
            noreply := false, state := rq_msgstate.new, conn := conn
            queue := none
            data := if conn.isSome then none else some [] }) := by
      unfold rq_msg_new
      rw [if_neg h1]
    refine ⟨_, _, heq, Int.natCast_nonneg _, ?_, rfl, rfl, rfl, rfl, rfl, rfl,
      rfl, rfl, rfl, rfl, rfl, ?_, ?_, ?_, ?_⟩
    · simp
    · intro k hk
      simp only [List.length_append, List.length_cons, List.length_nil] at hk
      by_cases hkk : k = rq.msg_list.length
      · subst hkk
        simp [slotOkB]
      · have hklt : k < rq.msg_list.length := by omega
        rw [List.getElem?_append_left hklt]
        exact hs k hklt
    · rw [List.countP_append]
      simp [hc]
    · simp only [List.length_append]
      omega
    · intro hpos
      have := countP_lt_of_none (hn hpos)
      omega

theorem rq_msg_clear_sound (rq : rq_t) (mid : Nat) (m : rq_message_t)
    (hinv : TableInv rq) (hslot : rq.msg_list[mid]? = some (some m)) :
    ∃ rq2, rq_msg_clear rq mid = some rq2 ∧
      rq2.msg_list = rq.msg_list.set mid none ∧
      rq2.msg_next = (mid : Int) ∧ rq2.msg_used + 1 = rq.msg_used ∧
      rq2.msg_list.length = rq.msg_list.length ∧
      rq2.connlist = rq.connlist ∧ rq2.queues = rq.queues ∧
      rq2.events = rq.events ∧ TableInv rq2 := by
  obtain ⟨hs, hc, hl, hn⟩ := hinv
  have hlt : mid < rq.msg_list.length := lt_of_slot hslot
  have hmid : m.id = (mid : Int) := slotOk_id (hs mid hlt) hslot
  have hpos : 0 < rq.msg_used := hc ▸ countP_pos_of_slot hslot
  have hcnt := countP_set_none (m := m) hslot
  have heq : rq_msg_clear rq mid = some
      { rq with msg_list := rq.msg_list.set mid none
                msg_next := (mid : Int), msg_used := rq.msg_used - 1 } := by
    unfold rq_msg_clear
    rw [if_neg (by omega), hslot]
    show (if m.id = (mid : Int) then _ else none) = _
    rw [if_pos hmid]
  refine ⟨_, heq, rfl, rfl, ?_, by simp, rfl, rfl, rfl, ?_, ?_, ?_, ?_⟩
  · show rq.msg_used - 1 + 1 = rq.msg_used
    omega
  · intro i hi
    rw [List.length_set] at hi
    by_cases hii : i = mid
    · subst hii
      rw [List.getElem?_set_eq hlt]
      simp [slotOkB]
    · rw [List.getElem?_set_ne (fun he => hii he.symm)]
      exact hs i hi
  · show rq.msg_used - 1 = (rq.msg_list.set mid none).countP Option.isSome
    omega
  · simpa using hl
  · intro _
    simpa using List.getElem?_set_eq (a := (none : Option rq_message_t)) hlt

theorem msgAt_some {rq : rq_t} {mid : Nat} {m : rq_message_t} :
    msgAt rq mid = some m ↔ rq.msg_list[mid]? = some (some m) := by
  unfold msgAt
  cases h : rq.msg_list[mid]? with
  | none => simp
  | some o => cases o <;> simp

theorem countP_set_some_of_some {mnew : rq_message_t} :
    ∀ {l : List (Option rq_message_t)} {i : Nat} {m : rq_message_t},
      l[i]? = some (some m) →
      (l.set i (some mnew)).countP Option.isSome = l.countP Option.isSome := by
  intro l
  induction l with
  | nil => intro i m h; simp at h
  | cons a t ih =>
    intro i m h
    cases i with
    | zero =>
      simp only [List.getElem?_cons_zero, Option.some.injEq] at h
      subst h
      simp [List.countP_cons]
    | succ j =>
      simp only [List.getElem?_cons_succ] at h
      simp only [List.set_cons_succ, List.countP_cons, ih h]

theorem tableInv_overwrite {rq : rq_t} {mid : Nat} {m mnew : rq_message_t}
    (hinv : TableInv rq) (hslot : rq.msg_list[mid]? = some (some m))
    (hid : mnew.id = m.id) :
    TableInv { rq with msg_list := rq.msg_list.set mid (some mnew) } := by
  obtain ⟨hs, hc, hl, hn⟩ := hinv
  have hlt : mid < rq.msg_list.length := lt_of_slot hslot
  have hmid : m.id = (mid : Int) := slotOk_id (hs mid hlt) hslot
  refine ⟨?_, ?_, ?_, ?_⟩
  · intro i hi
    rw [List.length_set] at hi
    by_cases hii : i = mid
    · subst hii
      rw [List.getElem?_set_eq hlt]
      simp [slotOkB, hid, hmid]
    · rw [List.getElem?_set_ne (fun he => hii he.symm)]
      exact hs i hi
  · show rq.msg_used = _
    rw [countP_set_some_of_some hslot]
    exact hc
  · simpa using hl
  · intro hpos
    have hold := hn hpos
    have hne : rq.msg_next.toNat ≠ mid := by
      intro he
      rw [he, hslot] at hold
      cases hold
    show (rq.msg_list.set mid (some mnew))[rq.msg_next.toNat]? = some none
    rw [List.getElem?_set_ne (fun he => hne he.symm)]
    exact hold

/-! Claim theorems, witnesses and counterexamples. -/

/-- C9: the CLEAR handler is idempotent on the parameter accumulator:
applying `cmdClear` twice yields exactly the same accumulator state (mask,
flags, id, qid, timeout, priority, queue buffer, payload buffer) as
applying it once. -/
theorem cmdClear_idempotent (d : rq_data_t) :
    cmdClear (cmdClear d) = cmdClear d := by
  cases h : d.payload <;> simp [cmdClear, h]

/-- C10: a CONSUMING verb whose accumulator has queue-id and queue-name
set but whose queue name matches no registered Subscription (the list
being non-empty) is a no-op at the interface: the handler returns the
client state unchanged - no Subscription's qid or callbacks change, no
accepted callback fires (event trace unchanged), nothing is emitted on
any Connection. -/
theorem cmdConsuming_nomatch_noop (rq : rq_t) (cid : Nat) (c : rq_conn_t)
    (d : rq_data_t)
    (hconn : connAt rq.connlist cid = some c) (hdata : c.data = some d)
    (hqid : d.maskQueueId = true) (hq : d.maskQueue = true)
    (hpos : 0 < d.qid) (hne : rq.queues ≠ [])
    (hnomatch : ∀ q ∈ rq.queues, q.queue ≠ d.queue) :
    cmdConsuming rq cid = some rq := by
  simp only [cmdConsuming, hconn, hdata, hqid, hq, Bool.and_self, if_true,
    if_pos hpos, if_pos hne, consumingUpd_nomatch _ _ _ hnomatch]
  simp

/-- Witness for C10: at the concrete state `c10rq` (CONSUMING for an
unknown queue name) the handler returns the state unchanged. -/
theorem cmdConsuming_nomatch_noop_w : cmdConsuming c10rq 0 = some c10rq :=
  cmdConsuming_nomatch_noop c10rq 0 _ _ rfl rfl rfl rfl (by decide)
    (by decide) (by decide)

/-- C4: every completed execution of `rq_msg_new` and `rq_msg_clear`
preserves the Message Table invariants (slot id equals index, `msg_used`
counts the occupied slots, `msg_used <= msg_max`, valid free-slot hint),
and under these invariants the ids of live messages are pairwise
distinct. -/
theorem msg_table_invariants :
    (∀ rq conn, TableInv rq →
      ∃ p, rq_msg_new rq conn = some p ∧ TableInv p.1) ∧
    (∀ rq mid m, TableInv rq → rq.msg_list[mid]? = some (some m) →
      ∃ rq2, rq_msg_clear rq mid = some rq2 ∧ TableInv rq2) ∧
    (∀ rq, TableInv rq → rq.msg_used ≤ rq.msg_list.length) ∧
    (∀ (rq : rq_t) (i j : Nat) (mi mj : rq_message_t), TableInv rq →
      rq.msg_list[i]? = some (some mi) →
      rq.msg_list[j]? = some (some mj) → i ≠ j → mi.id ≠ mj.id) := by
  refine ⟨?_, ?_, ?_, ?_⟩
  · intro rq conn hinv
    obtain ⟨rq2, m, heq, -, -, -, -, -, -, -, -, -, -, -, -, -, hinv2⟩ :=
      rq_msg_new_sound rq conn hinv
    exact ⟨(rq2, m), heq, hinv2⟩
  · intro rq mid m hinv hslot
    obtain ⟨rq2, heq, -, -, -, -, -, -, -, hinv2⟩ :=
      rq_msg_clear_sound rq mid m hinv hslot
    exact ⟨rq2, heq, hinv2⟩
  · intro rq hinv
    obtain ⟨-, hc, -, -⟩ := hinv
    exact hc ▸ List.countP_le_length _
  · intro rq i j mi mj hinv hi hj hne
    obtain ⟨hs, -, -, -⟩ := hinv
    have h1 : mi.id = (i : Int) := slotOk_id (hs i (lt_of_slot hi)) hi
    have h2 : mj.id = (j : Int) := slotOk_id (hs j (lt_of_slot hj)) hj
    rw [h1, h2]
    intro he
    exact hne (by exact_mod_cast he)

/-- Witness for C4 at the concrete table `c4rq` (two live messages, one
free slot): allocation and clearing succeed and preserve the invariants,
`used <= max` holds, and the two live ids differ. -/
theorem msg_table_invariants_w :
    TableInv c4rq ∧
    (∃ p, rq_msg_new c4rq none = some p ∧ TableInv p.1) ∧
    (∃ rq2, rq_msg_clear c4rq 1 = some rq2 ∧ TableInv rq2) ∧
    c4rq.msg_used ≤ c4rq.msg_list.length ∧
    (mkMsg 0 false 0 rq_msgstate.new false).id ≠
      (mkMsg 1 false 0 rq_msgstate.new false).id :=
  ⟨by unfold TableInv; decide,
   msg_table_invariants.1 c4rq none (by unfold TableInv; decide),
   msg_table_invariants.2.1 c4rq 1 (mkMsg 1 false 0 rq_msgstate.new false)
     (by unfold TableInv; decide) (by decide),
   msg_table_invariants.2.2.1 c4rq (by unfold TableInv; decide),
   msg_table_invariants.2.2.2 c4rq 0 1 _ _ (by unfold TableInv; decide)
     (by decide) (by decide) (by decide)⟩

/-- C5: slot selection of `rq_msg_new` follows the source algorithm - at
the hint when `used < max` and `next >= 0` (clearing the hint), else at
the first NULL slot found by linear scan when `used < max`, else at the
new tail index of the by-one grown table; in every case the message id is
the chosen index and `used` is incremented - and `rq_msg_clear` sets the
hint to the freed id, decrements `used`, and never shrinks the table. -/
theorem msg_slot_selection :
    (∀ rq conn, TableInv rq → rq.msg_used < rq.msg_list.length →
      0 ≤ rq.msg_next →
      ∃ m : rq_message_t, m.id = rq.msg_next ∧
        rq_msg_new rq conn = some ({ rq with
          msg_list := rq.msg_list.set rq.msg_next.toNat (some m)
          msg_next := -1, msg_used := rq.msg_used + 1 }, m)) ∧
    (∀ rq conn, TableInv rq → rq.msg_used < rq.msg_list.length →
      rq.msg_next < 0 →
      ∃ (i : Nat) (m : rq_message_t),
        rq.msg_list[i]? = some none ∧
        (∀ j, j < i → rq.msg_list[j]? ≠ some none) ∧ m.id = (i : Int) ∧
        rq_msg_new rq conn = some ({ rq with
          msg_list := rq.msg_list.set i (some m)
          msg_used := rq.msg_used + 1 }, m)) ∧
    (∀ rq conn, TableInv rq → rq.msg_list.length ≤ rq.msg_used →
      ∃ m : rq_message_t, m.id = (rq.msg_list.length : Int) ∧
        rq_msg_new rq conn = some ({ rq with
          msg_list := rq.msg_list ++ [some m]
          msg_used := rq.msg_used + 1 }, m)) ∧
    (∀ (rq : rq_t) (mid : Nat) (m : rq_message_t), TableInv rq →
      rq.msg_list[mid]? = some (some m) →
      ∃ rq2, rq_msg_clear rq mid = some rq2 ∧ rq2.msg_next = (mid : Int) ∧
        rq2.msg_used + 1 = rq.msg_used ∧
        rq2.msg_list.length = rq.msg_list.length) := by
  refine ⟨?_, ?_, ?_, ?_⟩
  · intro rq conn hinv h1 h2
    obtain ⟨-, -, -, hn⟩ := hinv
    have hslot := hn h2
    refine ⟨{ id := rq.msg_next, src_id := -1, broadcast := false
              noreply := false, state := rq_msgstate.new, conn := conn
              queue := none
              data := if conn.isSome then none else some [] }, rfl, ?_⟩
    unfold rq_msg_new
    rw [if_pos h1, if_pos h2, if_pos hslot]
  · intro rq conn hinv h1 h2
    obtain ⟨-, hc, -, -⟩ := hinv
    obtain ⟨i, hi⟩ := firstNil_of_count (hc ▸ h1)
    refine ⟨i, { id := (i : Int), src_id := -1, broadcast := false
                 noreply := false, state := rq_msgstate.new, conn := conn
                 queue := none
                 data := if conn.isSome then none else some [] },
      firstNil_spec hi, firstNil_min hi, rfl, ?_⟩
    unfold rq_msg_new
    rw [if_pos h1, if_neg (by omega), hi]
  · intro rq conn hinv hge
    obtain ⟨-, hc, -, -⟩ := hinv
    have h1 : ¬ rq.msg_used < rq.msg_list.length := by omega
    refine ⟨{ id := (rq.msg_list.length : Int), src_id := -1
              broadcast := false, noreply := false
              state := rq_msgstate.new, conn := conn, queue := none
              data := if conn.isSome then none else some [] }, rfl, ?_⟩
    unfold rq_msg_new
    rw [if_neg h1]
  · intro rq mid m hinv hslot
    obtain ⟨rq2, heq, -, hnext, hused, hlen, -, -, -, -⟩ :=
      rq_msg_clear_sound rq mid m hinv hslot
    exact ⟨rq2, heq, hnext, hused, hlen⟩

/-- Witness for C5: the three allocation branches evaluated at the
concrete tables `c5a` (hint), `c5b` (scan) and `c5c` (growth), and the
clear behaviour at `c5a`. -/
theorem msg_slot_selection_w :
    (∃ m : rq_message_t, m.id = c5a.msg_next ∧
      rq_msg_new c5a none = some ({ c5a with
        msg_list := c5a.msg_list.set c5a.msg_next.toNat (some m)
        msg_next := -1, msg_used := c5a.msg_used + 1 }, m)) ∧
    (∃ (i : Nat) (m : rq_message_t),
      c5b.msg_list[i]? = some none ∧
      (∀ j, j < i → c5b.msg_list[j]? ≠ some none) ∧ m.id = (i : Int) ∧
      rq_msg_new c5b none = some ({ c5b with
        msg_list := c5b.msg_list.set i (some m)
        msg_used := c5b.msg_used + 1 }, m)) ∧
    (∃ m : rq_message_t, m.id = (c5c.msg_list.length : Int) ∧
      rq_msg_new c5c none = some ({ c5c with
        msg_list := c5c.msg_list ++ [some m]
        msg_used := c5c.msg_used + 1 }, m)) ∧
    (∃ rq2, rq_msg_clear c5a 1 = some rq2 ∧ rq2.msg_next = (1 : Int) ∧
      rq2.msg_used + 1 = c5a.msg_used ∧
      rq2.msg_list.length = c5a.msg_list.length) :=
  ⟨msg_slot_selection.1 c5a none (by unfold TableInv; decide) (by decide)
     (by decide),
   msg_slot_selection.2.1 c5b none (by unfold TableInv; decide) (by decide)
     (by decide),
   msg_slot_selection.2.2.1 c5c none (by unfold TableInv; decide) (by decide),
   msg_slot_selection.2.2.2 c5a 1 (mkMsg 1 false 0 rq_msgstate.new false)
     (by unfold TableInv; decide) (by decide)⟩

/-- C8 (evaluation at the failing input): at `c8rq` - connection 1
active at the head, connection 2 idle - a CLOSING verb on connection 1
sets its `closing` flag and leaves it open (handle and read event
intact), but initiates NO connect on connection 2 (`connect_event`
stays false, no socket): `cmdClosing` calls `rq_connect`, which only
examines the list head - the closing connection itself - whose guard
`closing == 0 && active == 0` fails (librq.c:235, 1344-1346). -/
theorem closing_does_not_connect_next :
    (cmdClosing c8rq 1).map
      (fun g => g.connlist.map
        (fun c => (c.cid, c.closing, c.connect_event, c.handle,
                   c.read_event))) =
      some [(1, 1, false, true, true), (2, 0, false, false, false)] := by
  rfl

/-- C6: when a Connection in the connecting state sees its connect event
fire with `SO_ERROR = 0` (success), it becomes active and, for every
registered Subscription in order, one CONSUME command sequence
(`CLEAR, [EXCLUSIVE], QUEUE, MAX, PRIORITY, CONSUME`, see `consumeSeq`)
is emitted on that Connection; every other Connection is untouched.
The Subscription-field hypotheses are `rq_send_consume`'s own asserts
(`max >= 0`, `0 < strlen(queue) < 256`, librq.c:718-719), without which
the replay aborts instead of emitting. -/
theorem connect_success_replays_subscriptions (rq : rq_t) (cid : Nat)
    (c : rq_conn_t)
    (hconn : connAt rq.connlist cid = some c)
    (hce : c.connect_event = true) (hh : c.handle = true)
    (ha : c.active = 0) (hrb : c.readbuf = false) (hsb : c.sendbuf = false)
    (hib : c.inbuf = false) (hd : c.data = none) (hre : c.read_event = false)
    (hwe : c.write_event = false)
    (hnames : ∀ q ∈ rq.queues,
      0 ≤ q.max ∧ 0 < q.queue.length ∧ q.queue.length < 256) :
    ∃ g2 c2, rq_connect_handler rq cid 0 = some g2 ∧
      connAt g2.connlist cid = some c2 ∧
      c2.outbuf = c.outbuf ++ (rq.queues.map consumeSeq).flatten ∧
      c2.active = 1 ∧
      (∀ j, j ≠ cid → connAt g2.connlist j = connAt rq.connlist j) := by
  obtain ⟨c2, hrep, hout, hcid2, hact2, -, -, -, -, -⟩ :=
    replayConsume_sound rq.queues
      { c with connect_event := false, active := c.active + 1
               readbuf := true, sendbuf := true
               data := some rq_data_init, read_event := true
               write_event := if c.outbuf ≠ [] then true else c.write_event }
      hnames
  have hrepl : ∀ c0 : rq_conn_t, c0.cid = cid →
      ((fun _ => c2) c0 : rq_conn_t).cid = c0.cid := by
    intro c0 h0
    show c2.cid = c0.cid
    rw [hcid2]
    show c.cid = c0.cid
    rw [connAt_cid hconn, h0]
  have heq : rq_connect_handler rq cid 0 = some
      { rq with connlist := updConnAt rq.connlist cid (fun _ => c2) } := by
    simp only [rq_connect_handler, hconn]
    rw [if_pos ⟨hce, hh⟩, if_neg (by simp [ECONNREFUSED]),
      if_pos ⟨ha, hrb, hsb, hib, hd, hre, fun _ => hwe⟩, hrep]
  refine ⟨_, c2, heq, ?_, ?_, ?_, ?_⟩
  · show connAt (updConnAt rq.connlist cid _) cid = _
    rw [connAt_upd _ _ _ hrepl, hconn]
    rfl
  · exact hout
  · rw [hact2]
    show c.active + 1 = 1
    omega
  · intro j hj
    exact connAt_upd_other _ _ _ hrepl j hj

/-- Witness for C6 at `c6rq`: activating the connecting connection emits
the CONSUME sequences of both registered Subscriptions on it. -/
theorem connect_success_replays_subscriptions_w :
    ∃ g2 c2, rq_connect_handler c6rq 0 0 = some g2 ∧
      connAt g2.connlist 0 = some c2 ∧
      c2.outbuf = (connConnecting 0).outbuf ++
        (c6rq.queues.map consumeSeq).flatten ∧
      c2.active = 1 ∧
      (∀ j, j ≠ 0 → connAt g2.connlist j = connAt c6rq.connlist j) :=
  connect_success_replays_subscriptions c6rq 0 (connConnecting 0) rfl rfl rfl
    rfl rfl rfl rfl rfl rfl rfl (by decide)

/-- C3 counterexample: a queue-id-addressed REQUEST (`ID=7, QUEUEID=5,
PAYLOAD` set, no queue name) arriving while one Subscription with a
different qid is registered.  The claim requires a `CLEAR, ID,
UNDELIVERED` reply; instead the subscription scan evaluates
`strcmp(NULL, tmp->queue)` (librq.c:1126) - undefined behaviour, modelled
as a crash - so no reply is produced. -/
theorem cmdRequest_unknown_qid_crash :
    cmdRequest (fun s _ => s) c3bad 0 = none := by
  rfl

/-- C3 (amended): for a REQUEST whose accumulator has id, payload and a
queue NAME set (queue-id unset), addressed to a queue that no registered
(CONSUMING-acknowledged) Subscription consumes, the library emits
`CLEAR, ID=id, UNDELIVERED` on the same Connection, invokes no handler
(event trace unchanged), allocates no Message, and leaves the Message
Table, the Subscription list and every other Connection unchanged. -/
theorem cmdRequest_unknown_queue (hf : rq_t → Nat → rq_t) (rq : rq_t)
    (cid : Nat) (c : rq_conn_t) (d : rq_data_t)
    (hconn : connAt rq.connlist cid = some c) (hdata : c.data = some d)
    (hid : d.maskId = true) (hpl : d.maskPayload = true)
    (hqn : d.maskQueue = true) (hqi : d.maskQueueId = false)
    (hack : ∀ q ∈ rq.queues, 0 < q.qid)
    (hnomatch : ∀ q ∈ rq.queues, q.queue ≠ d.queue) :
    ∃ g2, cmdRequest hf rq cid = some g2 ∧
      g2.connlist = updConnAt rq.connlist cid
        (fun c0 => rq_senddata c0
          [Cmd.clear, Cmd.id (d.id : Int), Cmd.undelivered]) ∧
      connAt g2.connlist cid = some (rq_senddata c
        [Cmd.clear, Cmd.id (d.id : Int), Cmd.undelivered]) ∧
      (∀ j, j ≠ cid → connAt g2.connlist j = connAt rq.connlist j) ∧
      g2.events = rq.events ∧ g2.msg_list = rq.msg_list ∧
      g2.msg_used = rq.msg_used ∧ g2.msg_next = rq.msg_next ∧
      g2.queues = rq.queues := by
  have hsend : ∀ c0 : rq_conn_t, c0.cid = cid →
      (rq_senddata c0 [Cmd.clear, Cmd.id (d.id : Int), Cmd.undelivered]).cid
        = c0.cid := fun c0 _ => rfl
  have hnone : rq_find_queue 0 (some d.queue) rq.queues = some none :=
    rq_find_queue_name_none d.queue rq.queues hack hnomatch
  have heq : cmdRequest hf rq cid = some { rq with
      connlist := updConnAt rq.connlist cid
        (fun c0 => rq_senddata c0
          [Cmd.clear, Cmd.id (d.id : Int), Cmd.undelivered]) } := by
    simp only [cmdRequest, hconn, hdata, hid, hpl, hqn, hqi, Bool.and_true,
      Bool.and_self, Bool.or_false, Bool.false_or, if_true, if_false,
      Bool.true_and, Option.isSome_some, Option.isNone_some,
      Bool.and_false, Bool.or_true]
    simp only [Bool.false_eq_true, if_false, Bool.false_and, Bool.false_or,
      decide_eq_true_eq, eq_self_iff_true, if_true]
    rw [hnone]
  refine ⟨_, heq, rfl, ?_, ?_, rfl, rfl, rfl, rfl, rfl⟩
  · rw [connAt_upd _ _ _ hsend, hconn]
    rfl
  · intro j hj
    exact connAt_upd_other _ _ _ hsend j hj

/-- Witness for C3 (amended) at `c3rq`: the REQUEST for unknown queue
name `[1, 2]` yields the UNDELIVERED reply and changes nothing else. -/
theorem cmdRequest_unknown_queue_w :
    ∃ g2, cmdRequest (fun s _ => s) c3rq 0 = some g2 ∧
      g2.connlist = updConnAt c3rq.connlist 0
        (fun c0 => rq_senddata c0
          [Cmd.clear, Cmd.id ((7 : Nat) : Int), Cmd.undelivered]) ∧
      connAt g2.connlist 0 = some (rq_senddata
        (connActive 0 (some { dReqName with queue := [1, 2] }))
        [Cmd.clear, Cmd.id ((7 : Nat) : Int), Cmd.undelivered]) ∧
      (∀ j, j ≠ 0 → connAt g2.connlist j = connAt c3rq.connlist j) ∧
      g2.events = c3rq.events ∧ g2.msg_list = c3rq.msg_list ∧
      g2.msg_used = c3rq.msg_used ∧ g2.msg_next = c3rq.msg_next ∧
      g2.queues = c3rq.queues :=
  cmdRequest_unknown_queue (fun s _ => s) c3rq 0
    (connActive 0 (some { dReqName with queue := [1, 2] }))
    { dReqName with queue := [1, 2] } rfl rfl rfl rfl rfl rfl
    (by decide) (by decide)

theorem replySeq_one_reply (sid : Int) (repl : List Nat) :
    (replySeq sid repl).countP isReplyCmd = 1 := by
  by_cases hrep : repl = [] <;>
    simp [replySeq, hrep, isReplyCmd, List.countP_cons, List.countP_append]

/-- C2 counterexample: an inbound message in state `delivering` whose
`noreply` flag is set (reachable: `cmdRequest` copies the accumulator's
NOREPLY flag before invoking the handler, librq.c:1167-1169).  The claim
requires `rq_reply` to emit a REPLY sequence; instead the call hits
`assert(msg->noreply == 0)` (librq.c:1739) and aborts, emitting
nothing. -/
theorem rq_reply_noreply_aborts : rq_reply c2bad 0 [] = none := by
  rfl

/-- C2 (amended): for an inbound message (conn set) in state `delivering`
or `delivered` whose `noreply` flag is unset, `rq_reply` emits exactly
one REPLY command sequence (`CLEAR, ID=src_id, [PAYLOAD], REPLY`) on the
Connection the request arrived on, carrying `ID = src_id` and, when the
reply data is non-empty, that payload; a `delivering` message is marked
`replied` and stays in the table, a `delivered` one is cleared
immediately. -/
theorem rq_reply_roundtrip (rq : rq_t) (mid : Nat) (m : rq_message_t)
    (cid : Nat) (c : rq_conn_t) (repl : List Nat)
    (hm : msgAt rq mid = some m) (hmc : m.conn = some cid)
    (hc : connAt rq.connlist cid = some c)
    (hst : m.state = rq_msgstate.delivering ∨
           m.state = rq_msgstate.delivered)
    (hnr : m.noreply = false) (hbc : m.broadcast = false)
    (hq : m.queue = none) (hid : 0 ≤ m.id) (hsid : 0 ≤ m.src_id)
    (hdata : m.data.isSome = true) (hinv : TableInv rq) :
    ∃ g2, rq_reply rq mid repl = some g2 ∧
      connAt g2.connlist cid =
        some (rq_senddata c (replySeq m.src_id repl)) ∧
      (∀ j, j ≠ cid → connAt g2.connlist j = connAt rq.connlist j) ∧
      (replySeq m.src_id repl).countP isReplyCmd = 1 ∧
      Cmd.id m.src_id ∈ replySeq m.src_id repl ∧
      (repl ≠ [] → Cmd.payload repl ∈ replySeq m.src_id repl) ∧
      (m.state = rq_msgstate.delivering →
        msgAt g2 mid = some { m with state := rq_msgstate.replied } ∧
        g2.msg_used = rq.msg_used) ∧
      (m.state = rq_msgstate.delivered →
        msgAt g2 mid = none ∧ g2.msg_used + 1 = rq.msg_used) := by
  have hslot : rq.msg_list[mid]? = some (some m) := msgAt_some.mp hm
  have hlt : mid < rq.msg_list.length := lt_of_slot hslot
  have hsend : ∀ c0 : rq_conn_t, c0.cid = cid →
      (rq_senddata c0 (replySeq m.src_id repl)).cid = c0.cid :=
    fun c0 _ => rfl
  rcases hst with hdel | hdeld
  · -- replying from inside the handler: mark replied, keep the message
    have heq : rq_reply rq mid repl = some
        { rq with
          connlist := updConnAt rq.connlist cid
            (fun c0 => rq_senddata c0 (replySeq m.src_id repl))
          msg_list := rq.msg_list.set mid
            (some { m with state := rq_msgstate.replied }) } := by
      simp only [rq_reply, hm, hmc, hc]
      rw [if_pos ⟨hid, hsid, hbc, hnr, hq, Or.inl hdel, hdata⟩,
        if_neg (by rw [hdel]; intro hx; cases hx)]
    refine ⟨_, heq, ?_, ?_, replySeq_one_reply _ _, by simp [replySeq],
      ?_, ?_, ?_⟩
    · show connAt (updConnAt rq.connlist cid _) cid = _
      rw [connAt_upd _ _ _ hsend, hc]
      rfl
    · intro j hj
      exact connAt_upd_other _ _ _ hsend j hj
    · intro hrep
      simp [replySeq, hrep]
    · intro _
      refine ⟨?_, rfl⟩
      show msgAt { rq with
        connlist := updConnAt rq.connlist cid
          (fun c0 => rq_senddata c0 (replySeq m.src_id repl))
        msg_list := rq.msg_list.set mid
          (some { m with state := rq_msgstate.replied }) } mid = _
      unfold msgAt
      rw [show ({ rq with
        connlist := updConnAt rq.connlist cid
          (fun c0 => rq_senddata c0 (replySeq m.src_id repl))
        msg_list := rq.msg_list.set mid
          (some { m with state := rq_msgstate.replied }) } : rq_t).msg_list
          = rq.msg_list.set mid
            (some { m with state := rq_msgstate.replied }) from rfl,
        List.getElem?_set_eq hlt]
    · intro h
      rw [hdel] at h
      exact rq_msgstate.noConfusion h
  · -- replying after the handler returned: clear the message
    have hinv1 : TableInv { rq with
        connlist := updConnAt rq.connlist cid
          (fun c0 => rq_senddata c0 (replySeq m.src_id repl)) } := hinv
    obtain ⟨rq2, heq2, hlst, hnext, hused, hlen, hconn2, hqs2, hev2, hinv2⟩ :=
      rq_msg_clear_sound _ mid m hinv1 hslot
    have heq : rq_reply rq mid repl = some rq2 := by
      simp only [rq_reply, hm, hmc, hc]
      rw [if_pos ⟨hid, hsid, hbc, hnr, hq, Or.inr hdeld, hdata⟩,
        if_pos hdeld]
      exact heq2
    refine ⟨rq2, heq, ?_, ?_, replySeq_one_reply _ _, by simp [replySeq],
      ?_, ?_, ?_⟩
    · rw [show rq2.connlist = updConnAt rq.connlist cid
          (fun c0 => rq_senddata c0 (replySeq m.src_id repl)) from hconn2,
        connAt_upd _ _ _ hsend, hc]
      rfl
    · intro j hj
      rw [show rq2.connlist = updConnAt rq.connlist cid
          (fun c0 => rq_senddata c0 (replySeq m.src_id repl)) from hconn2]
      exact connAt_upd_other _ _ _ hsend j hj
    · intro hrep
      simp [replySeq, hrep]
    · intro h
      rw [hdeld] at h
      exact rq_msgstate.noConfusion h
    · intro _
      refine ⟨?_, hused⟩
      unfold msgAt
      rw [show rq2.msg_list = rq.msg_list.set mid none from hlst,
        List.getElem?_set_eq hlt]

/-- Witness for C2 (amended) at `c2rq`: replying to the delivering
inbound message emits the REPLY sequence on connection 0 and marks the
message `replied`. -/
theorem rq_reply_roundtrip_w :
    ∃ g2, rq_reply c2rq 0 [111, 107] = some g2 ∧
      connAt g2.connlist 0 = some (rq_senddata
        (connActive 0 (some rq_data_init))
        (replySeq (mkMsg 0 true 0 rq_msgstate.delivering false).src_id
          [111, 107])) ∧
      (∀ j, j ≠ 0 → connAt g2.connlist j = connAt c2rq.connlist j) ∧
      (replySeq (mkMsg 0 true 0 rq_msgstate.delivering false).src_id
        [111, 107]).countP isReplyCmd = 1 ∧
      Cmd.id (mkMsg 0 true 0 rq_msgstate.delivering false).src_id ∈
        replySeq (mkMsg 0 true 0 rq_msgstate.delivering false).src_id
          [111, 107] ∧
      (([111, 107] : List Nat) ≠ [] → Cmd.payload [111, 107] ∈
        replySeq (mkMsg 0 true 0 rq_msgstate.delivering false).src_id
          [111, 107]) ∧
      ((mkMsg 0 true 0 rq_msgstate.delivering false).state =
          rq_msgstate.delivering →
        msgAt g2 0 = some { mkMsg 0 true 0 rq_msgstate.delivering false with
          state := rq_msgstate.replied } ∧
        g2.msg_used = c2rq.msg_used) ∧
      ((mkMsg 0 true 0 rq_msgstate.delivering false).state =
          rq_msgstate.delivered →
        msgAt g2 0 = none ∧ g2.msg_used + 1 = c2rq.msg_used) :=
  rq_reply_roundtrip c2rq 0 (mkMsg 0 true 0 rq_msgstate.delivering false) 0
    (connActive 0 (some rq_data_init)) [111, 107] rfl rfl rfl (Or.inl rfl)
    rfl rfl rfl (by decide) (by decide) rfl (by unfold TableInv; decide)


theorem requestDeliver_sound (rq : rq_t) (cid : Nat) (d : rq_data_t)
    (q : rq_queue_t) (c : rq_conn_t) (p : List Nat)
    (hconn : connAt rq.connlist cid = some c) (hdata : c.data = some d)
    (hp : d.payload = some p) (hinv : TableInv rq) :
    ∃ s1 mid,
      requestDeliver rq cid d q = some (s1, mid) ∧
      (∃ c1, connAt s1.connlist cid = some c1 ∧
        c1.outbuf = c.outbuf ++
          [Cmd.clear, Cmd.id (d.id : Int), Cmd.delivered] ∧
        c1.data = some { d with payload := none }) ∧
      (∀ j, j ≠ cid → connAt s1.connlist j = connAt rq.connlist j) ∧
      (∃ m1, msgAt s1 mid = some m1 ∧ m1.id = (mid : Int) ∧
        m1.src_id = (d.id : Int) ∧ m1.conn = some cid ∧ m1.data = some p ∧
        m1.state = rq_msgstate.delivering ∧ m1.noreply = d.flagNoreply) ∧
      s1.events = rq.events ++ [Ev.handler q.queue mid] ∧
      s1.msg_used = rq.msg_used + 1 ∧
      TableInv s1 := by
  have hsend : ∀ c0 : rq_conn_t, c0.cid = cid →
      (rq_senddata c0 [Cmd.clear, Cmd.id (d.id : Int), Cmd.delivered]).cid
        = c0.cid := fun c0 _ => rfl
  have hpf : ∀ c0 : rq_conn_t, c0.cid = cid → (clearPayload c0).cid = c0.cid :=
    fun c0 _ => rfl
  have hinv1 : TableInv { rq with connlist := updConnAt rq.connlist cid (fun c0 => rq_senddata c0 [Cmd.clear, Cmd.id (d.id : Int), Cmd.delivered]) } := hinv
  obtain ⟨rq2, m0, heqN, hid0, hslot0, hsrc0, hstate0, hconn0, hbc0, hnr0,
    hqu0, hdat0, husd0, hcl0, hqs0, hev0, hinv2⟩ :=
    rq_msg_new_sound _ (some cid) hinv1
  have hlt2 : m0.id.toNat < rq2.msg_list.length := lt_of_slot hslot0
  have heqD : requestDeliver rq cid d q = some
      ({ rq2 with
          connlist := updConnAt rq2.connlist cid clearPayload
          msg_list := rq2.msg_list.set m0.id.toNat
            (some { m0 with src_id := (d.id : Int)
                            noreply := d.flagNoreply
                            data := some p
                            state := rq_msgstate.delivering })
          events := rq2.events ++ [Ev.handler q.queue m0.id.toNat] },
        m0.id.toNat) := by
    simp only [requestDeliver, heqN]
    rw [if_pos hid0, hp]
  refine ⟨_, m0.id.toNat, heqD,
    ⟨clearPayload (rq_senddata c [Cmd.clear, Cmd.id (d.id : Int), Cmd.delivered]), ?_, rfl, ?_⟩, ?_,
    ⟨{ m0 with src_id := (d.id : Int), noreply := d.flagNoreply, data := some p, state := rq_msgstate.delivering },
      ?_, ?_, rfl, hconn0, rfl, rfl, rfl⟩, ?_, husd0, ?_⟩
  · show connAt (updConnAt rq2.connlist cid clearPayload) cid = _
    rw [hcl0]
    show connAt (updConnAt (updConnAt rq.connlist cid _) cid
      clearPayload) cid = _
    rw [connAt_upd _ _ _ hpf, connAt_upd _ _ _ hsend, hconn]
    rfl
  · simp only [clearPayload, rq_senddata]
    rw [hdata]
    rfl
  · intro j hj
    show connAt (updConnAt rq2.connlist cid clearPayload) j = _
    rw [connAt_upd_other _ _ _ hpf j hj, hcl0]
    show connAt (updConnAt rq.connlist cid _) j = _
    rw [connAt_upd_other _ _ _ hsend j hj]
  · exact msgAt_some.mpr (List.getElem?_set_eq hlt2)
  · exact (Int.toNat_of_nonneg hid0).symm
  · show rq2.events ++ [Ev.handler q.queue m0.id.toNat] = _
    rw [hev0]
  · exact tableInv_overwrite hinv2 hslot0 rfl

/-- C1 counterexample: a queue-id-addressed REQUEST (`ID=7, QUEUEID=5,
PAYLOAD` set) whose matching Subscription (qid 5) is second in the
Subscription list.  The claim requires the DELIVERED reply and handler
dispatch; instead, while scanning the first (non-matching) Subscription,
the code evaluates `strcmp(NULL, tmp->queue)` (librq.c:1126) - undefined
behaviour, modelled as a crash - and never reaches the match. -/
theorem cmdRequest_qid_lookup_crash :
    cmdRequest (fun s _ => s) c1bad 0 = none := by
  rfl

/-- C1 (amended): a REQUEST whose accumulator has id, payload and a
queue NAME set (queue-id unset), matching a registered (acknowledged)
Subscription: the library first emits `CLEAR, ID=id, DELIVERED` on the
same Connection, allocates an inbound message whose `src_id` is the wire
id, whose `conn` is that Connection and whose `data` is the accumulator
payload moved out (the accumulator payload becomes nil), marks it
`delivering`, and invokes the Subscription's handler (recorded in the
event trace).  After the handler returns the message is cleared if its
`noreply` flag is set or its state is `replied`; otherwise its state
becomes `delivered` and it stays in the table. -/
theorem cmdRequest_dispatch (hf : rq_t → Nat → rq_t) (rq : rq_t)
    (cid : Nat) (c : rq_conn_t) (d : rq_data_t) (p : List Nat)
    (hconn : connAt rq.connlist cid = some c) (hdata : c.data = some d)
    (hid : d.maskId = true) (hpl : d.maskPayload = true)
    (hqn : d.maskQueue = true) (hqi : d.maskQueueId = false)
    (hp : d.payload = some p)
    (hack : ∀ q ∈ rq.queues, 0 < q.qid)
    (hmatch : ∃ q ∈ rq.queues, q.queue = d.queue)
    (hinv : TableInv rq)
    (hfkeep : ∀ s k mk, msgAt s k = some mk →
      ∃ mk2, msgAt (hf s k) k = some mk2)
    (hfinv : ∀ s k, TableInv s → TableInv (hf s k)) :
    ∃ mid s1,
      (∃ c1, connAt s1.connlist cid = some c1 ∧
        c1.outbuf = c.outbuf ++
          [Cmd.clear, Cmd.id (d.id : Int), Cmd.delivered] ∧
        c1.data = some { d with payload := none }) ∧
      (∀ j, j ≠ cid → connAt s1.connlist j = connAt rq.connlist j) ∧
      (∃ m1, msgAt s1 mid = some m1 ∧ m1.id = (mid : Int) ∧
        m1.src_id = (d.id : Int) ∧ m1.conn = some cid ∧ m1.data = some p ∧
        m1.state = rq_msgstate.delivering ∧ m1.noreply = d.flagNoreply) ∧
      s1.events = rq.events ++ [Ev.handler d.queue mid] ∧
      s1.msg_used = rq.msg_used + 1 ∧
      (∃ m2 gf, msgAt (hf s1 mid) mid = some m2 ∧
        cmdRequest hf rq cid = some gf ∧
        ((m2.noreply = true ∨ m2.state = rq_msgstate.replied) →
          msgAt gf mid = none ∧
          gf.msg_used + 1 = (hf s1 mid).msg_used) ∧
        (m2.noreply = false → m2.state ≠ rq_msgstate.replied →
          msgAt gf mid =
            some { m2 with state := rq_msgstate.delivered })) := by
  obtain ⟨q0, hfind, hq0name, -⟩ :=
    rq_find_queue_name_some d.queue rq.queues hack hmatch
  obtain ⟨s1, mid, heqD, hcc, hframe, hm1ex, hev, husd, hinvS⟩ :=
    requestDeliver_sound rq cid d q0 c p hconn hdata hp hinv
  obtain ⟨m1, hm1, hm1id, hm1src, hm1conn, hm1data, hm1state, hm1nr⟩ := hm1ex
  obtain ⟨m2, hm2⟩ := hfkeep s1 mid m1 hm1
  have hinv5 : TableInv (hf s1 mid) := hfinv s1 mid hinvS
  have hslot2 : (hf s1 mid).msg_list[mid]? = some (some m2) :=
    msgAt_some.mp hm2
  have hlt5 : mid < (hf s1 mid).msg_list.length := lt_of_slot hslot2
  have heqC : cmdRequest hf rq cid =
      (if m2.noreply = true then rq_msg_clear (hf s1 mid) mid
       else if m2.state = rq_msgstate.replied then
         rq_msg_clear (hf s1 mid) mid
       else some { (hf s1 mid) with msg_list := (hf s1 mid).msg_list.set mid (some { m2 with state := rq_msgstate.delivered }) }) := by
    simp only [cmdRequest, hconn, hdata, hid, hpl, hqn, hqi, Bool.and_true,
      Bool.and_self, Bool.or_false, Bool.false_or, if_true, if_false,
      Bool.true_and, Option.isSome_some, Option.isNone_some,
      Bool.and_false, Bool.or_true]
    simp only [Bool.false_eq_true, if_false, Bool.false_and, Bool.false_or,
      decide_eq_true_eq, eq_self_iff_true, if_true]
    simp only [hfind, heqD, hm2]
  refine ⟨mid, s1, hcc, hframe,
    ⟨m1, hm1, hm1id, hm1src, hm1conn, hm1data, hm1state, hm1nr⟩,
    by rw [hev, hq0name], husd, ?_⟩
  by_cases hn2 : m2.noreply = true
  · rw [if_pos hn2] at heqC
    obtain ⟨gf, heqCl, hlstf, -, husdf, -, -, -, -, -⟩ :=
      rq_msg_clear_sound (hf s1 mid) mid m2 hinv5 hslot2
    refine ⟨m2, gf, hm2, heqC.trans heqCl, fun _ => ⟨?_, husdf⟩, ?_⟩
    · unfold msgAt
      rw [show gf.msg_list = (hf s1 mid).msg_list.set mid none from hlstf,
        List.getElem?_set_eq hlt5]
    · intro hn2f
      rw [hn2f] at hn2
      cases hn2
  · have hn2f : m2.noreply = false := by
      cases h2 : m2.noreply
      · rfl
      · exact absurd h2 hn2
    rw [if_neg hn2] at heqC
    by_cases hr2 : m2.state = rq_msgstate.replied
    · rw [if_pos hr2] at heqC
      obtain ⟨gf, heqCl, hlstf, -, husdf, -, -, -, -, -⟩ :=
        rq_msg_clear_sound (hf s1 mid) mid m2 hinv5 hslot2
      refine ⟨m2, gf, hm2, heqC.trans heqCl, fun _ => ⟨?_, husdf⟩, ?_⟩
      · unfold msgAt
        rw [show gf.msg_list = (hf s1 mid).msg_list.set mid none from hlstf,
          List.getElem?_set_eq hlt5]
      · intro _ hne
        exact absurd hr2 hne
    · rw [if_neg hr2] at heqC
      refine ⟨m2, _, hm2, heqC, ?_, ?_⟩
      · intro hor
        rcases hor with h | h
        · exact absurd h hn2
        · exact absurd h hr2
      · intro _ _
        unfold msgAt
        rw [show ({ (hf s1 mid) with msg_list := (hf s1 mid).msg_list.set mid (some { m2 with state := rq_msgstate.delivered }) } : rq_t).msg_list = (hf s1 mid).msg_list.set mid (some { m2 with state := rq_msgstate.delivered }) from rfl,
          List.getElem?_set_eq hlt5]

/-- Witness for C1 (amended) at `c1rq`: a REQUEST for queue `[113, 49]`
with payload `[104, 105]` dispatched to the registered Subscription, with
a handler that returns without replying (so the message ends up
`delivered` and stays in the table). -/
theorem cmdRequest_dispatch_w :
    ∃ mid s1,
      (∃ c1, connAt s1.connlist 0 = some c1 ∧
        c1.outbuf = (connActive 0 (some dReqName)).outbuf ++
          [Cmd.clear, Cmd.id (dReqName.id : Int), Cmd.delivered] ∧
        c1.data = some { dReqName with payload := none }) ∧
      (∀ j, j ≠ 0 → connAt s1.connlist j = connAt c1rq.connlist j) ∧
      (∃ m1, msgAt s1 mid = some m1 ∧ m1.id = (mid : Int) ∧
        m1.src_id = (dReqName.id : Int) ∧ m1.conn = some 0 ∧
        m1.data = some [104, 105] ∧
        m1.state = rq_msgstate.delivering ∧
        m1.noreply = dReqName.flagNoreply) ∧
      s1.events = c1rq.events ++ [Ev.handler dReqName.queue mid] ∧
      s1.msg_used = c1rq.msg_used + 1 ∧
      (∃ m2 gf, msgAt s1 mid = some m2 ∧
        cmdRequest (fun s _ => s) c1rq 0 = some gf ∧
        ((m2.noreply = true ∨ m2.state = rq_msgstate.replied) →
          msgAt gf mid = none ∧ gf.msg_used + 1 = s1.msg_used) ∧
        (m2.noreply = false → m2.state ≠ rq_msgstate.replied →
          msgAt gf mid = some { m2 with state := rq_msgstate.delivered })) :=
  cmdRequest_dispatch (fun s _ => s) c1rq 0 (connActive 0 (some dReqName))
    dReqName [104, 105] rfl rfl rfl rfl rfl rfl rfl (by decide) (by decide)
    (by unfold TableInv; decide) (fun s k mk h => ⟨mk, h⟩) (fun s k h => h)

/-- Witness for C9 at the freshly initialised accumulator. -/
theorem cmdClear_idempotent_w :
    cmdClear (cmdClear rq_data_init) = cmdClear rq_data_init :=
  cmdClear_idempotent rq_data_init
